import Mathlib

/-!
Shallow embedding of the VortexL2 tunnel/forward lifecycle orchestrator
(src/vortexl2/forward.py and src/vortexl2/main.py), together with proofs
of the behavioural properties claimed for it.

Host interaction is modelled by an explicit environment: every external
command issued through `run_command` draws its `(success, output)` outcome
from an oracle indexed by the number of commands issued so far, and every
observable host action (command execution, unit-file write, tunnel
teardown step) is appended to an event trace.  Configuration mutation
(`add_port` / `remove_port`) and tunnel teardown (`full_teardown`) live in
repository modules not present in the excerpt (`config.py`, `tunnel.py`);
those are modelled from the specification and marked as such.
-/

namespace VortexL2

/-! ### Command executor (forward.py, `run_command`) -/

/-- Outcome of attempting to spawn one external command: either the process
completed with an exit code and captured stdout/stderr, or the attempt
raised (timeout or spawn failure) with an error message. -/
inductive SpawnResult where
  | completed (returncode : Int) (stdout stderr : String)
  | raised (err : String)
deriving DecidableEq

/-- Characters removed by Python `str.strip()` (ASCII whitespace). -/
def py_isspace (c : Char) : Bool :=
  c == ' ' || c == '\t' || c == '\n' || c == '\r' || c == '\x0b' || c == '\x0c'

/-- Model of Python `str.strip()`: drop whitespace from both ends. -/
def py_strip (s : String) : String :=
  String.mk (((s.toList.dropWhile py_isspace).reverse.dropWhile py_isspace).reverse)

/-- Split a character list at every comma, keeping empty pieces, as
Python `str.split(',')` does. -/
def pySplitL : List Char → List (List Char)
  | [] => [[]]
  | c :: cs =>
    if c = ',' then [] :: pySplitL cs
    else
      match pySplitL cs with
      | [] => [[c]]
      | h :: t => (c :: h) :: t

/-- Model of Python `str.split(',')`. -/
def py_split_comma (s : String) : List String :=
  (pySplitL s.toList).map String.mk

/-- Translation of `run_command` (forward.py lines 31-44): success iff the
exit code is zero; output is the stripped stdout if non-empty, else the
stripped stderr; any exception becomes `(False, str(e))`. -/
def run_command : SpawnResult → Bool × String
  | SpawnResult.completed rc out err =>
      (rc == 0, if py_strip out = "" then py_strip err else py_strip out)
  | SpawnResult.raised e => (false, e)

/-! ### Host/environment model -/

/-- Observable host actions recorded by the model. -/
inductive Event where
  | run (cmd : String)
  | write (path content : String)
  | teardown (step : String)
deriving DecidableEq

/-- The fields of `TunnelConfig` that the forward controller reads and
writes: the remote forward target (empty string models Python falsy, i.e.
unset) and the registered forwarded-port set. -/
structure Config where
  remote_forward_ip : String
  forwarded_ports : List Int
deriving DecidableEq

/-- World state threaded through the controllers: the tunnel configuration,
an oracle giving the outcome of the k-th issued command, a counter of
commands issued so far, whether the template unit file exists, whether a
unit-file write would succeed (and the error text if it would raise), the
outcome the modelled tunnel teardown reports, and the trace of host actions
performed so far. -/
structure Sys where
  cfg : Config
  resp : Nat → Bool × String
  tick : Nat
  templateExists : Bool
  writeOk : Bool
  writeErr : String
  tdOk : Bool
  tdMsg : String
  trace : List Event

/-- One invocation of `run_command` against the host: the outcome is drawn
from the oracle at the current command counter, and the command is recorded
in the trace. -/
def host_run (cmd : String) (s : Sys) : (Bool × String) × Sys :=
  (s.resp s.tick,
   { s with tick := s.tick + 1, trace := s.trace ++ [Event.run cmd] })

/-! ### Config port-set mutation

`TunnelConfig.add_port` / `remove_port` live in src/vortexl2/config.py,
which is not part of the excerpt; they are modelled from the spec. -/

/-- Modelled from the spec: `add_port` on TunnelEndpointConfig
(src/vortexl2/config.py is not in the excerpt).  The spec describes the
forwarded ports as a set of unique port numbers and calls registration
"idempotent — re-adding an existing port is a no-op at the data-model
level", so adding is set insertion. -/
def add_port (ports : List Int) (p : Int) : List Int :=
  if p ∈ ports then ports else ports ++ [p]

/-- Modelled from the spec: `remove_port` on TunnelEndpointConfig
(src/vortexl2/config.py is not in the excerpt); removal deletes the port
from the set. -/
def remove_port (ports : List Int) (p : Int) : List Int :=
  ports.filter (fun q => ¬ q = p)

/-! ### Forward controller (forward.py, `ForwardManager`) -/

/-- Translation of `_get_service_name`: the per-port unit name, the port
number spliced between the service prefix and the unit suffix. -/
def service_name (port : Int) : String :=
  "vortexl2-forward@" ++ toString port ++ ".service"

/-- Translation of `_get_template_path`: the template unit path under the
systemd directory. -/
def template_path : String :=
  "/etc/systemd/system/vortexl2-forward@.service"

/-- Translation of `FORWARD_TEMPLATE.format(remote_ip=...)` (forward.py
lines 15-28). -/
def forward_template (remote_ip : String) : String :=
  "[Unit]\nDescription=VortexL2 Port Forward - Port %i\n" ++
  "After=network.target vortexl2-tunnel.service\nRequires=network.target\n\n" ++
  "[Service]\nType=simple\n" ++
  "ExecStart=/usr/bin/socat TCP4-LISTEN:%i,reuseaddr,fork TCP4:" ++ remote_ip ++
  ":%i\nRestart=always\nRestartSec=5\n\n[Install]\nWantedBy=multi-user.target\n"

/-- Translation of `install_template` (forward.py lines 61-78): fail fast if
the remote forward target is falsy; otherwise try to write the rendered
template (an exception is modelled by `writeOk = false` with error text
`writeErr`), and on a successful write run a daemon-reload (its outcome is
ignored) and report success. -/
def install_template (s : Sys) : (Bool × String) × Sys :=
  if s.cfg.remote_forward_ip = "" then
    ((false, "Remote forward IP not configured"), s)
  else if s.writeOk then
    let s1 := { s with templateExists := true,
                       trace := s.trace ++
                         [Event.write template_path
                           (forward_template s.cfg.remote_forward_ip)] }
    let r := host_run "systemctl daemon-reload" s1
    ((true, "Template installed at " ++ template_path), r.2)
  else
    ((false, "Failed to install template: " ++ s.writeErr), s)

/-- Continuation of `create_forward` after the template guard (forward.py
lines 94-104): enable and start the per-port unit, registering the port in
the config only when that command succeeds. -/
def create_forward_enable (port : Int) (s : Sys) : (Bool × String) × Sys :=
  let r := host_run ("systemctl enable --now " ++ service_name port) s
  if r.1.1 then
    ((true, "Port forward for " ++ toString port ++ " created and started"),
     { r.2 with cfg := { r.2.cfg with
         forwarded_ports := add_port r.2.cfg.forwarded_ports port } })
  else
    ((false, "Failed to create forward for port " ++ toString port ++ ": " ++ r.1.2),
     r.2)

/-- Translation of `create_forward` (forward.py lines 86-104): lazily
install the template when absent, propagating its failure as an early
return; otherwise enable and start the unit. -/
def create_forward (port : Int) (s : Sys) : (Bool × String) × Sys :=
  if s.templateExists then create_forward_enable port s
  else
    let r := install_template s
    if r.1.1 then create_forward_enable port r.2
    else ((false, "Failed to install template: " ++ r.1.2), r.2)

/-- Translation of `remove_forward` (forward.py lines 106-117): stop, then
disable (both outcomes ignored), unregister the port, and report success
unconditionally. -/
def remove_forward (port : Int) (s : Sys) : (Bool × String) × Sys :=
  let r1 := host_run ("systemctl stop " ++ service_name port) s
  let r2 := host_run ("systemctl disable " ++ service_name port) r1.2
  ((true, "Port forward for " ++ toString port ++ " removed"),
   { r2.2 with cfg := { r2.2.cfg with
       forwarded_ports := remove_port r2.2.cfg.forwarded_ports port } })

/-! ### Python token parsing model -/

/-- Value of the remaining digit characters after the leading digit,
allowing a single underscore strictly between digits, as Python's `int`
accepts after sign removal. -/
def pyDigitsAux : List Char → Nat → Option Nat
  | [], acc => some acc
  | c :: cs, acc =>
    if c.isDigit then pyDigitsAux cs (acc * 10 + (c.toNat - 48))
    else if c = '_' then
      match cs with
      | [] => none
      | d :: cs2 =>
        if d.isDigit then pyDigitsAux cs2 (acc * 10 + (d.toNat - 48))
        else none
    else none

/-- Parse a non-empty ASCII digit run (with optional single underscores
between digits) to its value. -/
def pyDigits : List Char → Option Nat
  | [] => none
  | c :: cs => if c.isDigit then pyDigitsAux cs (c.toNat - 48) else none

/-- Model of Python `int(token)` on an already-stripped token: optional
single sign followed by a digit run. `none` models `ValueError`. -/
def pyInt? (s : String) : Option Int :=
  match s.toList with
  | [] => none
  | '-' :: rest => (pyDigits rest).map (fun n => -(n : Int))
  | '+' :: rest => (pyDigits rest).map (fun n => (n : Int))
  | l => (pyDigits l).map (fun n => (n : Int))

/-- Translation of `[p.strip() for p in ports_str.split(',') if p.strip()]`:
split on commas, strip each token, drop tokens that are empty after
stripping. -/
def pyTokens (ports_str : String) : List String :=
  ((py_split_comma ports_str).map py_strip).filter (fun t => ¬ t = "")

/-- The report line produced for an unparseable token: the token quoted
between single-quote characters, followed by the invalid-port text. -/
def invalid_line (t : String) : String :=
  "\x27" ++ t ++ "\x27: Invalid port number"

/-- Loop body of `add_multiple_forwards` (forward.py lines 124-134): for
each token, an unparseable token yields its invalid line; an out-of-range
port yields `"Port <p>: Invalid port number"`; otherwise `create_forward`
runs and its message is reported. -/
def add_lines : List String → Sys → List String × Sys
  | [], s => ([], s)
  | t :: ts, s =>
    match pyInt? t with
    | none =>
      let rest := add_lines ts s
      (invalid_line t :: rest.1, rest.2)
    | some port =>
      if port < 1 ∨ port > 65535 then
        let rest := add_lines ts s
        (("Port " ++ toString port ++ ": Invalid port number") :: rest.1, rest.2)
      else
        let r := create_forward port s
        let rest := add_lines ts r.2
        (("Port " ++ toString port ++ ": " ++ r.1.2) :: rest.1, rest.2)

/-- Translation of `add_multiple_forwards` (forward.py lines 119-136):
process the parsed tokens and always return outer success with the joined
report. -/
def add_multiple_forwards (ports_str : String) (s : Sys) : (Bool × String) × Sys :=
  let r := add_lines (pyTokens ports_str) s
  ((true, String.intercalate "\n" r.1), r.2)

/-- Loop body of `remove_multiple_forwards` (forward.py lines 143-149): no
range validation; every parsed token goes through `remove_forward`. -/
def remove_lines : List String → Sys → List String × Sys
  | [], s => ([], s)
  | t :: ts, s =>
    match pyInt? t with
    | none =>
      let rest := remove_lines ts s
      (invalid_line t :: rest.1, rest.2)
    | some port =>
      let r := remove_forward port s
      let rest := remove_lines ts r.2
      (("Port " ++ toString port ++ ": " ++ r.1.2) :: rest.1, rest.2)

/-- Translation of `remove_multiple_forwards` (forward.py lines 138-151). -/
def remove_multiple_forwards (ports_str : String) (s : Sys) : (Bool × String) × Sys :=
  let r := remove_lines (pyTokens ports_str) s
  ((true, String.intercalate "\n" r.1), r.2)

/-- Translation of `restart_forward` (forward.py lines 190-197). -/
def restart_forward (port : Int) (s : Sys) : (Bool × String) × Sys :=
  let r := host_run ("systemctl restart " ++ service_name port) s
  if r.1.1 then
    ((true, "Port forward for " ++ toString port ++ " restarted"), r.2)
  else
    ((false, "Failed to restart port " ++ toString port ++ ": " ++ r.1.2), r.2)

/-- Loop body of `restart_all_forwards` (forward.py lines 203-205). -/
def restart_lines : List Int → Sys → List String × Sys
  | [], s => ([], s)
  | p :: ps, s =>
    let r := restart_forward p s
    let rest := restart_lines ps r.2
    (("Port " ++ toString p ++ ": " ++ r.1.2) :: rest.1, rest.2)

/-- Translation of `restart_all_forwards` (forward.py lines 199-210). -/
def restart_all_forwards (s : Sys) : (Bool × String) × Sys :=
  let r := restart_lines s.cfg.forwarded_ports s
  if r.1 = [] then ((true, "No port forwards configured"), r.2)
  else ((true, String.intercalate "\n" r.1), r.2)

/-- Loop body of `stop_all_forwards` (forward.py lines 216-220). -/
def stop_lines : List Int → Sys → List String × Sys
  | [], s => ([], s)
  | p :: ps, s =>
    let r := host_run ("systemctl stop " ++ service_name p) s
    let status := if r.1.1 then "stopped" else "failed: " ++ r.1.2
    let rest := stop_lines ps r.2
    (("Port " ++ toString p ++ ": " ++ status) :: rest.1, rest.2)

/-- Translation of `stop_all_forwards` (forward.py lines 212-225). -/
def stop_all_forwards (s : Sys) : (Bool × String) × Sys :=
  let r := stop_lines s.cfg.forwarded_ports s
  if r.1 = [] then ((true, "No port forwards configured"), r.2)
  else ((true, String.intercalate "\n" r.1), r.2)

/-- Loop body of `start_all_forwards` (forward.py lines 231-235). -/
def start_lines : List Int → Sys → List String × Sys
  | [], s => ([], s)
  | p :: ps, s =>
    let r := host_run ("systemctl start " ++ service_name p) s
    let status := if r.1.1 then "started" else "failed: " ++ r.1.2
    let rest := start_lines ps r.2
    (("Port " ++ toString p ++ ": " ++ status) :: rest.1, rest.2)

/-- Translation of `start_all_forwards` (forward.py lines 227-240). -/
def start_all_forwards (s : Sys) : (Bool × String) × Sys :=
  let r := start_lines s.cfg.forwarded_ports s
  if r.1 = [] then ((true, "No port forwards configured"), r.2)
  else ((true, String.intercalate "\n" r.1), r.2)

/-! ### Tunnel teardown (tunnel.py, not in the excerpt) -/

/-- The ordered tunnel teardown steps. -/
def teardown_trace : List Event :=
  [Event.teardown "interface-down", Event.teardown "interface-remove",
   Event.teardown "session-remove", Event.teardown "tunnel-remove"]

/-- Modelled from the spec: `TunnelManager.full_teardown`
(src/vortexl2/tunnel.py is not in the excerpt) brings the interface down,
removes it, removes the session and removes the tunnel, in that order, each
step best-effort; the aggregate result reported to the caller is drawn from
the environment. -/
def full_teardown (s : Sys) : (Bool × String) × Sys :=
  ((s.tdOk, s.tdMsg), { s with trace := s.trace ++ teardown_trace })

/-! ### Coordinator stop flow (main.py, `handle_stop_tunnel`) -/

/-- Translation of the confirmed path of `handle_stop_tunnel` (main.py
lines 206-236): when the tunnel has registered forwarded ports, stop all
forwards first; then tear the tunnel down. -/
def handle_stop_tunnel (s : Sys) : Sys :=
  let s1 := if ¬ s.cfg.forwarded_ports = [] then (stop_all_forwards s).2 else s
  (full_teardown s1).2

/-! ### Coordinator apply flow (main.py, `cmd_apply`)

`cmd_apply` iterates the stored tunnel configurations; its per-tunnel
controller calls (`TunnelManager.full_setup`, whose module is not in the
excerpt, and the forward controller calls) are abstracted to recorded
outcomes so the flow's own control structure is modelled exactly. -/

/-- One stored tunnel configuration as seen by `cmd_apply`, with the
outcome each controller call would report for it: `is_configured` is the
TunnelConfig predicate (modelled from the spec: it holds iff the addresses
and all four identifiers are present — src/vortexl2/config.py is not in
the excerpt), `setup_ok`/`setup_msg` the result of `full_setup`,
`tmpl_ok`/`tmpl_msg` of `install_template`, and `fwd_ok`/`fwd_msg` of
`start_all_forwards`. -/
structure ApplyTunnel where
  name : String
  is_configured : Bool
  forwarded_ports : List Int
  setup_ok : Bool
  setup_msg : String
  tmpl_ok : Bool
  tmpl_msg : String
  fwd_ok : Bool
  fwd_msg : String
deriving DecidableEq

/-- Controller calls made by the apply flow, in order. -/
inductive ApplyEvent where
  | skipped (name : String)
  | setup (name : String) (ok : Bool)
  | tmplInstall (name : String) (ok : Bool)
  | fwdStart (name : String) (ok : Bool)
deriving DecidableEq

/-- Body of the `for config in tunnels` loop of `cmd_apply` (main.py lines
51-73), acting on the running error count and call trace: skip
unconfigured tunnels; run setup; on setup failure count an error and
continue; otherwise, when ports are registered, install the template and
start all forwards (the template result is not consulted). -/
def apply_step (acc : Nat × List ApplyEvent) (t : ApplyTunnel) :
    Nat × List ApplyEvent :=
  if t.is_configured = false then
    (acc.1, acc.2 ++ [ApplyEvent.skipped t.name])
  else
    let acc1 := (acc.1, acc.2 ++ [ApplyEvent.setup t.name t.setup_ok])
    if t.setup_ok = false then (acc1.1 + 1, acc1.2)
    else if ¬ t.forwarded_ports = [] then
      (acc1.1, acc1.2 ++ [ApplyEvent.tmplInstall t.name t.tmpl_ok,
                          ApplyEvent.fwdStart t.name t.fwd_ok])
    else acc1

/-- Translation of `cmd_apply` (main.py lines 38-75): with no stored
tunnels exit 0; otherwise run the loop and exit 1 exactly when at least
one error was counted.  The second component is the trace of controller
calls made. -/
def cmd_apply (tunnels : List ApplyTunnel) : Nat × List ApplyEvent :=
  if tunnels = [] then (0, [])
  else
    let r := tunnels.foldl apply_step (0, [])
    ((if r.1 > 0 then 1 else 0), r.2)

/-! ### Concrete environments used for witnesses and counterexamples -/

/-- Oracle under which every issued command succeeds with empty output. -/
def okResp : Nat → Bool × String := fun _ => (true, "")

/-- Oracle under which every issued command fails with output `boom`. -/
def failResp : Nat → Bool × String := fun _ => (false, "boom")

/-- A state with no remote forward target configured. -/
def sysU : Sys :=
  { cfg := { remote_forward_ip := "", forwarded_ports := [] }, resp := okResp,
    tick := 0, templateExists := false, writeOk := true, writeErr := "",
    tdOk := true, tdMsg := "", trace := [] }

/-- A state with a remote target set and a working unit-file write. -/
def sysB : Sys :=
  { sysU with cfg := { remote_forward_ip := "10.0.0.2", forwarded_ports := [] } }

/-- A state with a remote target set whose unit-file write raises. -/
def sysA : Sys :=
  { sysB with writeOk := false, writeErr := "Permission denied" }

/-- A state with port 5 already registered, the template installed, and a
host on which every command fails. -/
def sysC : Sys :=
  { cfg := { remote_forward_ip := "10.0.0.2", forwarded_ports := [5] },
    resp := failResp, tick := 0, templateExists := true, writeOk := true,
    writeErr := "", tdOk := true, tdMsg := "", trace := [] }

/-- A state with ports 80 and 443 registered and an all-success host. -/
def sysW : Sys :=
  { cfg := { remote_forward_ip := "10.0.0.2", forwarded_ports := [80, 443] },
    resp := okResp, tick := 0, templateExists := true, writeOk := true,
    writeErr := "", tdOk := true, tdMsg := "", trace := [] }

/-- A fresh state (no registered ports, template installed) over an
arbitrary command oracle. -/
def freshSys (f : Nat → Bool × String) : Sys :=
  { cfg := { remote_forward_ip := "10.0.0.2", forwarded_ports := [] },
    resp := f, tick := 0, templateExists := true, writeOk := true,
    writeErr := "", tdOk := true, tdMsg := "", trace := [] }

/-! ### Helper lemmas -/

/-- `install_template` never touches the tunnel configuration. -/
lemma install_template_cfg (s : Sys) : (install_template s).2.cfg = s.cfg := by
  unfold install_template host_run
  split
  · rfl
  · split <;> rfl

/-- `create_forward_enable` either succeeds and registers the port, or
fails and leaves the port set unchanged. -/
lemma create_forward_enable_cases (p : Int) (s : Sys) :
    ((create_forward_enable p s).1.1 = true ∧
      (create_forward_enable p s).2.cfg.forwarded_ports =
        add_port s.cfg.forwarded_ports p) ∨
    ((create_forward_enable p s).1.1 = false ∧
      (create_forward_enable p s).2.cfg.forwarded_ports =
        s.cfg.forwarded_ports) := by
  unfold create_forward_enable host_run
  cases h : (s.resp s.tick).1 <;> simp [h]

/-- `create_forward` either succeeds and registers the port, or fails and
leaves the port set unchanged. -/
lemma create_forward_cases (p : Int) (s : Sys) :
    ((create_forward p s).1.1 = true ∧
      (create_forward p s).2.cfg.forwarded_ports =
        add_port s.cfg.forwarded_ports p) ∨
    ((create_forward p s).1.1 = false ∧
      (create_forward p s).2.cfg.forwarded_ports =
        s.cfg.forwarded_ports) := by
  unfold create_forward
  split
  · exact create_forward_enable_cases p s
  · dsimp only
    split
    · have h := create_forward_enable_cases p (install_template s).2
      rwa [install_template_cfg] at h
    · right
      refine ⟨rfl, ?_⟩
      show (install_template s).2.cfg.forwarded_ports = s.cfg.forwarded_ports
      rw [install_template_cfg]

/-- Inserting `p` into a port set holding it at most once yields a set
holding it exactly once. -/
lemma count_add_port (l : List Int) (p : Int) (h : l.count p ≤ 1) :
    (add_port l p).count p = 1 := by
  unfold add_port
  split
  · have hpos : 0 < l.count p := List.count_pos_iff.mpr (by assumption)
    omega
  · have hz : l.count p = 0 := List.count_eq_zero.mpr (by assumption)
    simp [List.count_append, hz]

/-! ### Claim theorems -/

/-- C6: `run_command` never raises: a timeout or spawn failure yields
`(false, error text)`, and a completed command succeeds exactly when its
exit code is zero, with output the stripped stdout when that is non-empty
and the stripped stderr otherwise. -/
theorem run_command_total_spec :
    (∀ e, run_command (SpawnResult.raised e) = (false, e)) ∧
    (∀ rc out err,
      ((run_command (SpawnResult.completed rc out err)).1 = true ↔ rc = 0) ∧
      (run_command (SpawnResult.completed rc out err)).2 =
        (if py_strip out = "" then py_strip err else py_strip out)) := by
  refine ⟨fun e => rfl, fun rc out err => ⟨?_, rfl⟩⟩
  simp [run_command]

/-- Witness for C6: concrete evaluations through `run_command_total_spec`. -/
theorem run_command_total_spec_witness :
    (run_command (SpawnResult.completed 0 " hi " "e")).1 = true ∧
    run_command (SpawnResult.raised "timed out") = (false, "timed out") :=
  ⟨((run_command_total_spec.2 0 " hi " "e").1).mpr rfl,
   run_command_total_spec.1 "timed out"⟩

/-- C7: `remove_forward` issues the stop command and then the disable
command unconditionally, unregisters the port from the config's
forwarded-port set, and always returns success. -/
theorem remove_forward_spec (p : Int) (s : Sys) :
    (remove_forward p s).1 =
      (true, "Port forward for " ++ toString p ++ " removed") ∧
    (remove_forward p s).2.trace =
      s.trace ++ [Event.run ("systemctl stop " ++ service_name p),
                  Event.run ("systemctl disable " ++ service_name p)] ∧
    ¬ p ∈ (remove_forward p s).2.cfg.forwarded_ports ∧
    (remove_forward p s).2.cfg.forwarded_ports =
      remove_port s.cfg.forwarded_ports p := by
  refine ⟨rfl, by simp [remove_forward, host_run], ?_, rfl⟩
  simp [remove_forward, host_run, remove_port, List.mem_filter]

/-- C5 counterexample: with a remote target set but the unit-file write
raising, `install_template` neither writes the template nor triggers a
reload — it returns the write failure with an unchanged trace, refuting
the claim that whenever the target is set the template is written and a
reload is triggered. -/
theorem install_template_write_failure_cex :
    ¬ sysA.cfg.remote_forward_ip = "" ∧
    (install_template sysA).1 =
      (false, "Failed to install template: Permission denied") ∧
    (install_template sysA).2.trace = [] := by
  refine ⟨by decide, rfl, rfl⟩

/-- C5 (amended): with the remote target unset, `install_template` returns
exactly `(false, "Remote forward IP not configured")` and performs no host
action; with the target set and the unit-file write succeeding, it writes
the rendered template and then triggers the service-manager reload; with
the target set and the write raising, it reports the failure and performs
no host action. -/
theorem install_template_spec (s : Sys) :
    (s.cfg.remote_forward_ip = "" →
      (install_template s).1 = (false, "Remote forward IP not configured") ∧
      (install_template s).2 = s) ∧
    (¬ s.cfg.remote_forward_ip = "" → s.writeOk = true →
      (install_template s).1 =
        (true, "Template installed at " ++ template_path) ∧
      (install_template s).2.trace =
        s.trace ++
          [Event.write template_path
            (forward_template s.cfg.remote_forward_ip),
           Event.run "systemctl daemon-reload"]) ∧
    (¬ s.cfg.remote_forward_ip = "" → s.writeOk = false →
      (install_template s).1 =
        (false, "Failed to install template: " ++ s.writeErr) ∧
      (install_template s).2 = s) := by
  refine ⟨fun h => ?_, fun h hw => ?_, fun h hw => ?_⟩
  · simp [install_template, host_run, h]
  · simp [install_template, host_run, h, hw]
  · simp [install_template, host_run, h, hw]

/-- Witness for C5: the three branches of `install_template_spec` at
concrete states. -/
theorem install_template_spec_witness :
    (install_template sysU).1 = (false, "Remote forward IP not configured") ∧
    (install_template sysB).1 =
      (true, "Template installed at " ++ template_path) ∧
    (install_template sysA).1 =
      (false, "Failed to install template: Permission denied") :=
  ⟨((install_template_spec sysU).1 (by decide)).1,
   ((install_template_spec sysB).2.1 (by decide) (by decide)).1,
   ((install_template_spec sysA).2.2 (by decide) (by decide)).1⟩

/-- C3 counterexample: with port 5 already registered and the enable
command failing, `create_forward 5` returns failure yet 5 is still in the
forwarded-port set, refuting "after createForward(p) returns failure, p is
absent from the config's forwarded-port set". -/
theorem create_forward_failure_present_cex :
    (create_forward 5 sysC).1.1 = false ∧
    5 ∈ (create_forward 5 sysC).2.cfg.forwarded_ports := by
  refine ⟨rfl, by decide⟩

/-- C3 (amended): a failing `create_forward` never registers the port —
the port set is unchanged, so a port absent beforehand stays absent; after
a successful call the port is present exactly once (given the set held it
at most once before), even if `create_forward` is called for it twice; and
registration happens only through the successful branch. -/
theorem create_forward_port_set_spec (p : Int) (s : Sys)
    (h : s.cfg.forwarded_ports.count p ≤ 1) :
    ((create_forward p s).1.1 = false →
      (create_forward p s).2.cfg.forwarded_ports = s.cfg.forwarded_ports) ∧
    (¬ p ∈ s.cfg.forwarded_ports → (create_forward p s).1.1 = false →
      ¬ p ∈ (create_forward p s).2.cfg.forwarded_ports) ∧
    ((create_forward p s).1.1 = true →
      (create_forward p s).2.cfg.forwarded_ports.count p = 1 ∧
      (create_forward p (create_forward p s).2).2.cfg.forwarded_ports.count p
        = 1) := by
  have hc := create_forward_cases p s
  refine ⟨fun hf => ?_, fun hm hf => ?_, fun ht => ?_⟩
  · rcases hc with ⟨h1, _⟩ | ⟨_, h2⟩
    · rw [hf] at h1; cases h1
    · exact h2
  · rcases hc with ⟨h1, _⟩ | ⟨_, h2⟩
    · rw [hf] at h1; cases h1
    · rw [h2]; exact hm
  · rcases hc with ⟨_, h2⟩ | ⟨h1, _⟩
    · have hone : (create_forward p s).2.cfg.forwarded_ports.count p = 1 := by
        rw [h2]; exact count_add_port _ p h
      refine ⟨hone, ?_⟩
      rcases create_forward_cases p (create_forward p s).2 with ⟨_, h3⟩ | ⟨_, h3⟩
      · rw [h3]
        exact count_add_port _ p (le_of_eq hone)
      · rw [h3]; exact hone
    · rw [ht] at h1; cases h1

/-- Witness for C3: a fresh state on an all-success host registers port 80
exactly once across two `create_forward` calls. -/
theorem create_forward_port_set_spec_witness :
    (create_forward 80 sysW).1.1 = true ∧
    (create_forward 80 (create_forward 80 sysW).2).2.cfg.forwarded_ports.count 80
      = 1 :=
  ⟨by decide,
   ((create_forward_port_set_spec 80 sysW (by decide)).2.2 (by decide)).2⟩

/-- The stop loop appends exactly one stop command per registered port to
the trace, in port order, leaves the configuration unchanged, and produces
one report line per port. -/
lemma stop_lines_state (ps : List Int) : ∀ s : Sys,
    (stop_lines ps s).2.trace =
      s.trace ++ ps.map (fun p => Event.run ("systemctl stop " ++ service_name p)) ∧
    (stop_lines ps s).2.cfg = s.cfg ∧
    (stop_lines ps s).1.length = ps.length := by
  induction ps with
  | nil => intro s; simp [stop_lines]
  | cons p ps ih =>
    intro s
    have h := ih (host_run ("systemctl stop " ++ service_name p) s).2
    simp only [stop_lines, host_run] at *
    refine ⟨?_, ?_, ?_⟩
    · rw [h.1]; simp
    · rw [h.2.1]
    · simp [h.2.2]

/-- Both branches of `stop_all_forwards` return the state produced by the
stop loop. -/
lemma stop_all_forwards_state (s : Sys) :
    (stop_all_forwards s).2 = (stop_lines s.cfg.forwarded_ports s).2 := by
  unfold stop_all_forwards
  dsimp only
  split <;> rfl

/-- C4: in the coordinator's stop flow on a tunnel with at least one
registered forwarded port, the stop commands for all registered forwards
are appended to the trace before any tunnel teardown step. -/
theorem stop_flow_ordering (s : Sys) (h : ¬ s.cfg.forwarded_ports = []) :
    (handle_stop_tunnel s).trace =
      s.trace ++
        s.cfg.forwarded_ports.map
          (fun p => Event.run ("systemctl stop " ++ service_name p)) ++
        teardown_trace := by
  unfold handle_stop_tunnel full_teardown
  simp only [h, not_false_iff, if_true, stop_all_forwards_state]
  rw [(stop_lines_state s.cfg.forwarded_ports s).1]

/-- Witness for C4: concrete stop flow on a tunnel with ports 80 and 443. -/
theorem stop_flow_ordering_witness :
    (handle_stop_tunnel sysW).trace =
      sysW.trace ++
        sysW.cfg.forwarded_ports.map
          (fun p => Event.run ("systemctl stop " ++ service_name p)) ++
        teardown_trace :=
  stop_flow_ordering sysW (by decide)

/-- The start loop produces one report line per registered port. -/
lemma start_lines_length (ps : List Int) : ∀ s : Sys,
    (start_lines ps s).1.length = ps.length := by
  induction ps with
  | nil => intro s; rfl
  | cons p ps ih => intro s; simp [start_lines, ih]

/-- The restart loop produces one report line per registered port. -/
lemma restart_lines_length (ps : List Int) : ∀ s : Sys,
    (restart_lines ps s).1.length = ps.length := by
  induction ps with
  | nil => intro s; rfl
  | cons p ps ih => intro s; simp [restart_lines, ih]

/-- C8: `stop_all_forwards`, `start_all_forwards` and
`restart_all_forwards` always return overall success; with no registered
ports the report is the single line "No port forwards configured", and
otherwise the report joins exactly one line per registered port. -/
theorem bulk_forwards_spec (s : Sys) :
    ((stop_all_forwards s).1.1 = true ∧
      (s.cfg.forwarded_ports = [] →
        (stop_all_forwards s).1.2 = "No port forwards configured") ∧
      (stop_lines s.cfg.forwarded_ports s).1.length =
        s.cfg.forwarded_ports.length ∧
      (¬ s.cfg.forwarded_ports = [] →
        (stop_all_forwards s).1.2 =
          String.intercalate "\n" (stop_lines s.cfg.forwarded_ports s).1)) ∧
    ((start_all_forwards s).1.1 = true ∧
      (s.cfg.forwarded_ports = [] →
        (start_all_forwards s).1.2 = "No port forwards configured") ∧
      (start_lines s.cfg.forwarded_ports s).1.length =
        s.cfg.forwarded_ports.length ∧
      (¬ s.cfg.forwarded_ports = [] →
        (start_all_forwards s).1.2 =
          String.intercalate "\n" (start_lines s.cfg.forwarded_ports s).1)) ∧
    ((restart_all_forwards s).1.1 = true ∧
      (s.cfg.forwarded_ports = [] →
        (restart_all_forwards s).1.2 = "No port forwards configured") ∧
      (restart_lines s.cfg.forwarded_ports s).1.length =
        s.cfg.forwarded_ports.length ∧
      (¬ s.cfg.forwarded_ports = [] →
        (restart_all_forwards s).1.2 =
          String.intercalate "\n" (restart_lines s.cfg.forwarded_ports s).1)) := by
  refine ⟨⟨?_, ?_, (stop_lines_state s.cfg.forwarded_ports s).2.2, ?_⟩,
          ⟨?_, ?_, start_lines_length s.cfg.forwarded_ports s, ?_⟩,
          ⟨?_, ?_, restart_lines_length s.cfg.forwarded_ports s, ?_⟩⟩
  · unfold stop_all_forwards; dsimp only; split <;> rfl
  · intro h; unfold stop_all_forwards; rw [h]; rfl
  · intro h; unfold stop_all_forwards
    have hne : ¬ (stop_lines s.cfg.forwarded_ports s).1 = [] := by
      intro he
      have hl := (stop_lines_state s.cfg.forwarded_ports s).2.2
      rw [he] at hl
      exact h (List.length_eq_zero.mp hl.symm)
    dsimp only
    rw [if_neg hne]
  · unfold start_all_forwards; dsimp only; split <;> rfl
  · intro h; unfold start_all_forwards; rw [h]; rfl
  · intro h; unfold start_all_forwards
    have hne : ¬ (start_lines s.cfg.forwarded_ports s).1 = [] := by
      intro he
      have hl := start_lines_length s.cfg.forwarded_ports s
      rw [he] at hl
      exact h (List.length_eq_zero.mp hl.symm)
    dsimp only
    rw [if_neg hne]
  · unfold restart_all_forwards; dsimp only; split <;> rfl
  · intro h; unfold restart_all_forwards; rw [h]; rfl
  · intro h; unfold restart_all_forwards
    have hne : ¬ (restart_lines s.cfg.forwarded_ports s).1 = [] := by
      intro he
      have hl := restart_lines_length s.cfg.forwarded_ports s
      rw [he] at hl
      exact h (List.length_eq_zero.mp hl.symm)
    dsimp only
    rw [if_neg hne]

/-- Witness for C8: concrete bulk results with ports 80 and 443 and with
an empty port set. -/
theorem bulk_forwards_spec_witness :
    (stop_all_forwards sysW).1.1 = true ∧
    (stop_all_forwards sysU).1.2 = "No port forwards configured" ∧
    (restart_all_forwards sysW).1.2 =
      String.intercalate "\n" (restart_lines sysW.cfg.forwarded_ports sysW).1 :=
  ⟨(bulk_forwards_spec sysW).1.1,
   (bulk_forwards_spec sysU).1.2.1 (by decide),
   (bulk_forwards_spec sysW).2.2.2.2.2 (by decide)⟩

/-- The error counter accumulated by the apply loop counts exactly the
configured tunnels whose setup failed. -/
lemma apply_fold_count (ts : List ApplyTunnel) : ∀ acc : Nat × List ApplyEvent,
    (ts.foldl apply_step acc).1 =
      acc.1 + ts.countP (fun t => t.is_configured && !t.setup_ok) := by
  induction ts with
  | nil => intro acc; simp
  | cons t ts ih =>
    intro acc
    rw [List.foldl_cons, ih, List.countP_cons]
    unfold apply_step
    cases hc : t.is_configured <;> cases hs : t.setup_ok <;>
      simp [hc, hs] <;> (try split) <;> (try simp) <;> omega

/-- Events already accumulated are preserved by the rest of the apply
loop. -/
lemma apply_fold_mem (ts : List ApplyTunnel) :
    ∀ (acc : Nat × List ApplyEvent) (e : ApplyEvent), e ∈ acc.2 →
      e ∈ (ts.foldl apply_step acc).2 := by
  induction ts with
  | nil => intro acc e he; exact he
  | cons t ts ih =>
    intro acc e he
    rw [List.foldl_cons]
    refine ih _ e ?_
    unfold apply_step
    cases hc : t.is_configured <;> cases hs : t.setup_ok <;>
      simp [hc, hs, he] <;> (try split) <;> simp [he]

/-- Every configured tunnel with successful setup and a non-empty port set
gets a forward-start call recorded by the apply loop. -/
lemma apply_fold_fwdstart (ts : List ApplyTunnel) :
    ∀ (acc : Nat × List ApplyEvent) (t : ApplyTunnel), t ∈ ts →
      t.is_configured = true → t.setup_ok = true → ¬ t.forwarded_ports = [] →
      ApplyEvent.fwdStart t.name t.fwd_ok ∈ (ts.foldl apply_step acc).2 := by
  induction ts with
  | nil => intro acc t ht; cases ht
  | cons u ts ih =>
    intro acc t ht hc hs hp
    rw [List.foldl_cons]
    rcases List.mem_cons.mp ht with rfl | hts
    · refine apply_fold_mem ts _ _ ?_
      unfold apply_step
      simp [hc, hs, hp]
    · exact ih _ t hts hc hs hp

/-- C1: the apply flow exits 1 iff at least one configured tunnel's setup
failed; skipped (unconfigured) tunnels and template/forward-start outcomes
never affect the exit status, which is always 0 or 1. -/
theorem cmd_apply_exit_spec (ts : List ApplyTunnel) :
    ((cmd_apply ts).1 = 1 ↔
      ∃ t ∈ ts, t.is_configured = true ∧ t.setup_ok = false) ∧
    ((cmd_apply ts).1 = 0 ∨ (cmd_apply ts).1 = 1) := by
  unfold cmd_apply
  split
  · rename_i hnil
    subst hnil
    simp
  · dsimp only
    rw [apply_fold_count ts (0, [])]
    simp only [Nat.zero_add]
    have hpos : 0 < ts.countP (fun t => t.is_configured && !t.setup_ok) ↔
        ∃ t ∈ ts, t.is_configured = true ∧ t.setup_ok = false := by
      rw [List.countP_pos_iff]
      constructor
      · rintro ⟨t, ht, hpt⟩
        refine ⟨t, ht, ?_⟩
        simpa [Bool.and_eq_true, Bool.not_eq_true'] using hpt
      · rintro ⟨t, ht, h1, h2⟩
        exact ⟨t, ht, by simp [h1, h2]⟩
    constructor
    · constructor
      · intro h1
        rw [← hpos]
        by_contra hn
        have hz : ts.countP (fun t => t.is_configured && !t.setup_ok) = 0 :=
          Nat.eq_zero_of_not_pos hn
        rw [hz] at h1
        simp at h1
      · intro hex
        rw [if_pos (hpos.mpr hex)]
    · split <;> simp

/-- A configured tunnel whose setup fails. -/
def tFail : ApplyTunnel :=
  { name := "t1", is_configured := true, forwarded_ports := [80],
    setup_ok := false, setup_msg := "e", tmpl_ok := true, tmpl_msg := "",
    fwd_ok := true, fwd_msg := "" }

/-- A tunnel that is not fully configured. -/
def tSkip : ApplyTunnel :=
  { name := "t0", is_configured := false, forwarded_ports := [],
    setup_ok := false, setup_msg := "", tmpl_ok := true, tmpl_msg := "",
    fwd_ok := true, fwd_msg := "" }

/-- A configured tunnel with successful setup whose template install
fails. -/
def tTmplFail : ApplyTunnel :=
  { name := "t1", is_configured := true, forwarded_ports := [80],
    setup_ok := true, setup_msg := "", tmpl_ok := false, tmpl_msg := "e",
    fwd_ok := true, fwd_msg := "" }

/-- Witness for C1: one configured tunnel with failing setup exits 1; an
unconfigured tunnel plus a configured tunnel whose setup succeeds but whose
template install fails exits 0. -/
theorem cmd_apply_exit_spec_witness :
    (cmd_apply [tFail]).1 = 1 ∧ (cmd_apply [tSkip, tTmplFail]).1 = 0 := by
  constructor
  · exact (cmd_apply_exit_spec [tFail]).1.mpr
      ⟨tFail, by simp, by decide, by decide⟩
  · rcases cmd_apply_exit_spec [tSkip, tTmplFail] with ⟨hiff, hor⟩
    rcases hor with h0 | h1
    · exact h0
    · exact absurd (hiff.mp h1) (by decide)

/-- C10: in the apply flow, every configured tunnel whose setup succeeded
and that has registered ports gets its forward-start call, with no
condition on the outcome of the preceding template install. -/
theorem cmd_apply_fwdstart_spec (ts : List ApplyTunnel) (t : ApplyTunnel)
    (ht : t ∈ ts) (hc : t.is_configured = true) (hs : t.setup_ok = true)
    (hp : ¬ t.forwarded_ports = []) :
    ApplyEvent.fwdStart t.name t.fwd_ok ∈ (cmd_apply ts).2 := by
  unfold cmd_apply
  split
  · rename_i hnil
    subst hnil
    cases ht
  · dsimp only
    exact apply_fold_fwdstart ts (0, []) t ht hc hs hp

/-- Witness for C10: a tunnel whose template install fails still gets its
forward-start call. -/
theorem cmd_apply_fwdstart_spec_witness :
    ApplyEvent.fwdStart "t1" true ∈ (cmd_apply [tTmplFail]).2 :=
  cmd_apply_fwdstart_spec [tTmplFail] tTmplFail (by simp) (by decide)
    (by decide) (by decide)

/-- The add loop produces exactly one report line per token. -/
lemma add_lines_length (ts : List String) : ∀ s : Sys,
    (add_lines ts s).1.length = ts.length := by
  induction ts with
  | nil => intro s; rfl
  | cons t ts ih =>
    intro s
    rcases h : pyInt? t with _ | port
    · simp [add_lines, h, ih]
    · simp only [add_lines, h]
      split <;> simp [ih]

/-- The remove loop produces exactly one report line per token. -/
lemma remove_lines_length (ts : List String) : ∀ s : Sys,
    (remove_lines ts s).1.length = ts.length := by
  induction ts with
  | nil => intro s; rfl
  | cons t ts ih =>
    intro s
    rcases h : pyInt? t with _ | port <;> simp [remove_lines, h, ih]

/-- A token at position `i` that does not parse as an integer produces the
invalid-port line at position `i` of the add loop's report. -/
lemma add_lines_getD_invalid (ts : List String) : ∀ (s : Sys) (i : Nat),
    i < ts.length → pyInt? (ts.getD i "") = none →
    (add_lines ts s).1.getD i "" = invalid_line (ts.getD i "") := by
  induction ts with
  | nil => intro s i hi hn; simp at hi
  | cons t ts ih =>
    intro s i hi hn
    cases i with
    | zero =>
      simp only [List.getD_cons_zero] at hn ⊢
      simp [add_lines, hn]
    | succ j =>
      simp only [List.getD_cons_succ] at hn ⊢
      have hj : j < ts.length := Nat.lt_of_succ_lt_succ hi
      rcases h : pyInt? t with _ | port
      · simp only [add_lines, h]
        simpa using ih s j hj hn
      · simp only [add_lines, h]
        split
        · simpa using ih s j hj hn
        · simpa using ih _ j hj hn

/-- Behaviour of the add loop on the tokens of `"80,abc,443"` from a fresh
state, for every command oracle: three report lines, the middle one
flagging `abc`, and exactly the two enable commands for ports 80 and 443
issued. -/
lemma add_lines_concrete (f : Nat → Bool × String) :
    (add_lines (pyTokens "80,abc,443") (freshSys f)).1.length = 3 ∧
    (add_lines (pyTokens "80,abc,443") (freshSys f)).1.getD 1 "" =
      invalid_line "abc" ∧
    (add_lines (pyTokens "80,abc,443") (freshSys f)).2.trace =
      [Event.run ("systemctl enable --now " ++ service_name 80),
       Event.run ("systemctl enable --now " ++ service_name 443)] := by
  have htok : pyTokens "80,abc,443" = ["80", "abc", "443"] := by decide
  rw [htok]
  have h80 : pyInt? "80" = some 80 := by decide
  have habc : pyInt? "abc" = none := by decide
  have h443 : pyInt? "443" = some 443 := by decide
  have hr80 : ¬ ((80 : Int) < 1 ∨ (80 : Int) > 65535) := by decide
  have hr443 : ¬ ((443 : Int) < 1 ∨ (443 : Int) > 65535) := by decide
  rcases hf0 : f 0 with ⟨b0, o0⟩
  rcases hf1 : f 1 with ⟨b1, o1⟩
  cases b0 <;> cases b1 <;>
    simp [add_lines, h80, habc, h443, hr80, hr443, create_forward,
          create_forward_enable, host_run, freshSys, add_port, invalid_line,
          hf0, hf1]

/-- C2: `add_multiple_forwards` always reports outer success with the
joined per-token report; the report has exactly one line per token in
input order; an unparseable token yields its quoted invalid-port line; and
on input `"80,abc,443"`, for every command oracle, ports 80 and 443 are
both attempted (their enable commands are issued) while the report has
exactly three lines with the middle one flagging `abc`. -/
theorem add_multiple_forwards_spec (ports_str : String) (s : Sys) :
    (add_multiple_forwards ports_str s).1.1 = true ∧
    (add_multiple_forwards ports_str s).1.2 =
      String.intercalate "\n" (add_lines (pyTokens ports_str) s).1 ∧
    (add_lines (pyTokens ports_str) s).1.length =
      (pyTokens ports_str).length ∧
    (∀ i, i < (pyTokens ports_str).length →
      pyInt? ((pyTokens ports_str).getD i "") = none →
      (add_lines (pyTokens ports_str) s).1.getD i "" =
        invalid_line ((pyTokens ports_str).getD i "")) ∧
    (∀ f : Nat → Bool × String,
      (add_lines (pyTokens "80,abc,443") (freshSys f)).1.length = 3 ∧
      (add_lines (pyTokens "80,abc,443") (freshSys f)).1.getD 1 "" =
        invalid_line "abc" ∧
      (add_lines (pyTokens "80,abc,443") (freshSys f)).2.trace =
        [Event.run ("systemctl enable --now " ++ service_name 80),
         Event.run ("systemctl enable --now " ++ service_name 443)]) :=
  ⟨rfl, rfl, add_lines_length (pyTokens ports_str) s,
   fun i hi hn => add_lines_getD_invalid (pyTokens ports_str) s i hi hn,
   add_lines_concrete⟩

/-- Witness for C2: the batch call on `"80,abc,443"` under an all-success
host, with the middle report line evaluated. -/
theorem add_multiple_forwards_spec_witness :
    (add_multiple_forwards "80,abc,443" (freshSys okResp)).1.1 = true ∧
    (add_lines (pyTokens "80,abc,443") (freshSys okResp)).1.getD 1 "" =
      invalid_line "abc" := by
  refine ⟨(add_multiple_forwards_spec "80,abc,443" (freshSys okResp)).1, ?_⟩
  have h := (add_multiple_forwards_spec "80,abc,443"
    (freshSys okResp)).2.2.2.1 1 (by decide) (by decide)
  rw [h]
  decide

/-- Stripping then dropping empties keeps as many tokens as there are
pieces that are non-empty after stripping. -/
lemma filter_strip_length (l : List String) :
    ((l.map py_strip).filter (fun t => ¬ t = "")).length =
      (l.filter (fun t => ¬ py_strip t = "")).length := by
  induction l with
  | nil => rfl
  | cons t l ih =>
    by_cases h : py_strip t = ""
    · simp [List.filter_cons, h]
      simpa using ih
    · simp [List.filter_cons, h]
      simpa using ih

/-- C9: both batch operations drop tokens that are empty or
whitespace-only after splitting on commas — the report has one line per
non-blank piece, blank pieces contribute nothing observable (the whole
call result is unchanged by them), and `"80,,443"` yields a two-line
report for add and remove alike. -/
theorem multiple_forwards_blank_tokens_spec (ports_str : String) (s : Sys) :
    (add_lines (pyTokens ports_str) s).1.length =
      ((py_split_comma ports_str).filter (fun t => ¬ py_strip t = "")).length ∧
    (remove_lines (pyTokens ports_str) s).1.length =
      ((py_split_comma ports_str).filter (fun t => ¬ py_strip t = "")).length ∧
    add_multiple_forwards "80,,443" s = add_multiple_forwards "80,443" s ∧
    remove_multiple_forwards "80, ,443" s =
      remove_multiple_forwards "80,443" s ∧
    (add_lines (pyTokens "80,,443") s).1.length = 2 ∧
    (remove_lines (pyTokens "80,,443") s).1.length = 2 := by
  refine ⟨?_, ?_, ?_, ?_, ?_, ?_⟩
  · rw [add_lines_length]
    exact filter_strip_length (py_split_comma ports_str)
  · rw [remove_lines_length]
    exact filter_strip_length (py_split_comma ports_str)
  · have h : pyTokens "80,,443" = pyTokens "80,443" := by decide
    simp [add_multiple_forwards, h]
  · have h : pyTokens "80, ,443" = pyTokens "80,443" := by decide
    simp [remove_multiple_forwards, h]
  · rw [add_lines_length]
    decide
  · rw [remove_lines_length]
    decide

end VortexL2
